import Mathlib

/-!
Verification of the flight-mode governance core of PlainFlightController.

The repository's visible source is the header `Flight_Ctrl.h`, which declares
the flight-state enumeration, the gain-bank enumeration, and the two
fixed-point failsafe-threshold macros.  The state machine, failsafe monitor
and control-law dispatcher are specified but not present under the source
tree, so they are modelled here from the specification; the enumerations and
threshold macros are embedded directly from the header.
-/

set_option maxRecDepth 100000

namespace PlainFlight

/-- Embeds the C enumeration `states` from Flight_Ctrl.h:
state_disarmed = 0, state_pass_through, state_rate, state_auto_level,
state_failsafe, state_calibrating. -/
inductive states where
  | state_disarmed
  | state_pass_through
  | state_rate
  | state_auto_level
  | state_failsafe
  | state_calibrating
deriving DecidableEq, Fintype, Repr

/-- Numeric values of the C enumerators of `states` (state_disarmed = 0U and
the rest follow in declaration order). -/
def states.code : states → Nat
  | .state_disarmed => 0
  | .state_pass_through => 1
  | .state_rate => 2
  | .state_auto_level => 3
  | .state_failsafe => 4
  | .state_calibrating => 5

/-- Embeds the anonymous C enumeration stored in `gain_bank` in
Flight_Ctrl.h: rate_gain = 0, levelled_gain. -/
inductive gain_bank where
  | rate_gain
  | levelled_gain
deriving DecidableEq, Fintype, Repr

/-- Numeric values of the C enumerators of `gain_bank`. -/
def gain_bank.code : gain_bank → Nat
  | .rate_gain => 0
  | .levelled_gain => 1

/-- Truncation of a rational toward zero to an integer.  Models the C cast
`(int32_t)` applied to a floating-point product, for values whose product is
representable (the configured angle limits are small, so no 32-bit overflow
or float rounding is in play for the inputs considered here). -/
def truncTowardZero (x : ℚ) : ℤ :=
  if 0 ≤ x then ⌊x⌋ else ⌈x⌉

/-- Embeds the macro on line 22 of Flight_Ctrl.h:
`#define FAILSAFE_ROLL_ANGLE_x100 (int32_t)(FAILSAFE_ROLL_ANGLE * 100.0f)`.
The two arguments are the configured FAILSAFE_ROLL_ANGLE and
FAILSAFE_PITCH_ANGLE values (degrees). -/
def FAILSAFE_ROLL_ANGLE_x100 (roll_angle pitch_angle : ℚ) : ℤ :=
  truncTowardZero (roll_angle * 100)

/-- Embeds the macro on line 23 of Flight_Ctrl.h:
`#define FAILSAFE_PITCH_ANGLE_x100 (int32_t)(FAILSAFE_ROLL_ANGLE * 100.0f)`.
Note: the source expression reads FAILSAFE_ROLL_ANGLE, not
FAILSAFE_PITCH_ANGLE; the embedding reproduces that text exactly. -/
def FAILSAFE_PITCH_ANGLE_x100 (roll_angle pitch_angle : ℚ) : ℤ :=
  truncTowardZero (roll_angle * 100)

/-- Modelled from the spec: ArmingInput, the external arm-switch signal.
The spec requires an invalid arm-switch value to be interpreted as disarm,
so the raw input carries an explicit invalid case. -/
inductive ArmInput where
  | arm_on
  | arm_off
  | arm_invalid
deriving DecidableEq, Fintype, Repr

/-- Modelled from the spec: ModeSwitchInput, the external discrete signal
selecting among PassThrough/Rate/AutoLevel when armed, with an explicit
out-of-range case. -/
inductive ModeInput where
  | mode_pass_through
  | mode_rate
  | mode_auto_level
  | mode_invalid
deriving DecidableEq, Fintype, Repr

/-- Modelled from the spec: CalibrationResult, the external signal
in-progress / success / failure from the sensor-calibration collaborator. -/
inductive CalibrationResult where
  | cal_in_progress
  | cal_success
  | cal_failure
deriving DecidableEq, Fintype, Repr

/-- Modelled from the spec: the inputs sampled at the start of one
control-loop tick.  `failsafe_active` is the Failsafe Monitor's verdict,
evaluated strictly before the state-machine transition within the tick. -/
structure TickInputs where
  arm : ArmInput
  mode : ModeInput
  calibration_result : CalibrationResult
  calibration_requested : Bool
  calibration_complete : Bool
  failsafe_active : Bool
deriving DecidableEq, Fintype, Repr

/-- Modelled from the spec: interpretation of the arm switch.  Only a valid
`arm_on` counts as armed intent; `arm_off` and the invalid value are both
treated as disarm (fail safe toward the least-authority state). -/
def armEffectiveOn (a : ArmInput) : Bool :=
  match a with
  | .arm_on => true
  | .arm_off => false
  | .arm_invalid => false

/-- Modelled from the spec: the armed sub-state selected by the mode switch;
an invalid or out-of-range mode value retains the current state. -/
def modeState (m : ModeInput) (current : states) : states :=
  match m with
  | .mode_pass_through => .state_pass_through
  | .mode_rate => .state_rate
  | .mode_auto_level => .state_auto_level
  | .mode_invalid => current

/-- Modelled from the spec: the state machine's whole mutable state, i.e.
the single FlightState value plus the minimal memory needed to recognise
that the arm switch has been cycled off while in Failsafe. -/
structure MachineState where
  flight_state : states
  failsafe_arm_seen_off : Bool
deriving DecidableEq, Fintype, Repr

/-- The three armed flight states (PassThrough, Rate, AutoLevel). -/
def isArmed (s : states) : Bool :=
  match s with
  | .state_pass_through => true
  | .state_rate => true
  | .state_auto_level => true
  | _ => false

/-- Modelled from the spec: the Flight State Machine's per-tick transition
function (section 4.2).  Tie-breaks follow the spec: failsafe entry is
evaluated first in every armed state, disarm has priority over mode-switch
changes, and calibration can only start from Disarmed while the arm switch
is not asserting armed intent (calibration cannot be entered while armed,
and an arming request with incomplete calibration is ignored, not queued). -/
def transition (s : MachineState) (i : TickInputs) : MachineState :=
  match s.flight_state with
  | .state_disarmed =>
      if armEffectiveOn i.arm then
        if i.calibration_complete then
          { flight_state := modeState i.mode .state_disarmed
            failsafe_arm_seen_off := false }
        else
          { flight_state := .state_disarmed, failsafe_arm_seen_off := false }
      else if i.calibration_requested then
        { flight_state := .state_calibrating, failsafe_arm_seen_off := false }
      else
        { flight_state := .state_disarmed, failsafe_arm_seen_off := false }
  | .state_calibrating =>
      match i.calibration_result with
      | .cal_in_progress =>
          { flight_state := .state_calibrating, failsafe_arm_seen_off := false }
      | .cal_success =>
          { flight_state := .state_disarmed, failsafe_arm_seen_off := false }
      | .cal_failure =>
          { flight_state := .state_disarmed, failsafe_arm_seen_off := false }
  | .state_failsafe =>
      let seen_off := s.failsafe_arm_seen_off || !(armEffectiveOn i.arm)
      if !i.failsafe_active && s.failsafe_arm_seen_off && armEffectiveOn i.arm then
        { flight_state := .state_disarmed, failsafe_arm_seen_off := false }
      else
        { flight_state := .state_failsafe, failsafe_arm_seen_off := seen_off }
  | current =>
      if i.failsafe_active then
        { flight_state := .state_failsafe, failsafe_arm_seen_off := false }
      else if !(armEffectiveOn i.arm) then
        { flight_state := .state_disarmed, failsafe_arm_seen_off := false }
      else
        { flight_state := modeState i.mode current
          failsafe_arm_seen_off := false }

/-- Modelled from the spec: the state machine's state at boot (Disarmed). -/
def bootState : MachineState :=
  { flight_state := .state_disarmed, failsafe_arm_seen_off := false }

/-- Modelled from the spec: running the machine over a sequence of ticks. -/
def runTicks (s : MachineState) (l : List TickInputs) : MachineState :=
  l.foldl transition s

/-- Modelled from the spec: control-law behavior tags exposed by the
Control-Law Dispatcher (section 4.3). -/
inductive ControlLawTag where
  | law_neutral
  | law_direct_pass_through
  | law_rate_control
  | law_auto_level_control
deriving DecidableEq, Fintype, Repr

/-- Modelled from the spec: the dispatcher's per-tick output, a gain-bank
identifier (none when no gain bank applies) paired with a behavior tag. -/
structure DispatchOutput where
  gain : Option gain_bank
  law : ControlLawTag
deriving DecidableEq, Fintype, Repr

/-- Modelled from the spec: the Control-Law Dispatcher, a pure mapping from
the current flight state to gain bank and control-law behavior. -/
def control_law_dispatch : states → DispatchOutput
  | .state_rate => { gain := some .rate_gain, law := .law_rate_control }
  | .state_auto_level => { gain := some .levelled_gain, law := .law_auto_level_control }
  | .state_pass_through => { gain := none, law := .law_direct_pass_through }
  | .state_disarmed => { gain := none, law := .law_neutral }
  | .state_calibrating => { gain := none, law := .law_neutral }
  | .state_failsafe => { gain := none, law := .law_neutral }

/-- Modelled from the spec: the Failsafe Monitor (section 4.1).  The verdict
is the OR of a receiver signal-loss check (elapsed ticks since the last
valid frame strictly exceed the configured timeout) and, while in
AutoLevel, an attitude check comparing the absolute roll and pitch angles
(hundredths of a degree) strictly against the fixed-point thresholds. -/
def failsafe_monitor (current : states)
    (ticks_since_frame signal_loss_timeout : Nat)
    (roll_x100 pitch_x100 roll_limit_x100 pitch_limit_x100 : ℤ) : Bool :=
  decide (signal_loss_timeout < ticks_since_frame) ||
    (decide (current = states.state_auto_level) &&
      (decide (roll_limit_x100 < |roll_x100|) ||
        decide (pitch_limit_x100 < |pitch_x100|)))

/-- Helper: while failsafe is asserted, a machine in Failsafe stays there. -/
lemma failsafe_step_stays (s : MachineState) (i : TickInputs)
    (hs : s.flight_state = states.state_failsafe)
    (hf : i.failsafe_active = true) :
    (transition s i).flight_state = states.state_failsafe := by
  rcases s with ⟨st, b⟩
  simp only at hs
  subst hs
  simp [transition, hf]

/-- Helper: over any tick sequence during which failsafe stays asserted, a
machine in Failsafe remains in Failsafe. -/
lemma failsafe_run_stays (l : List TickInputs) :
    ∀ s : MachineState, s.flight_state = states.state_failsafe →
      (∀ i ∈ l, i.failsafe_active = true) →
      (runTicks s l).flight_state = states.state_failsafe := by
  induction l with
  | nil => intro s hs _; simpa [runTicks] using hs
  | cons i l ih =>
      intro s hs hall
      have hstep := failsafe_step_stays s i hs (hall i (by simp))
      have : runTicks s (i :: l) = runTicks (transition s i) l := rfl
      rw [this]
      exact ih (transition s i) hstep (fun j hj => hall j (by simp [hj]))

/-- C1: in every armed state (PassThrough, Rate, AutoLevel), if the Failsafe
Monitor asserts failsafe on a tick, the next state on that tick is Failsafe,
for every combination of arm-switch and mode-switch inputs. -/
theorem C1_failsafe_preempts_armed_states :
    ∀ (s : MachineState) (i : TickInputs),
      isArmed s.flight_state = true → i.failsafe_active = true →
      (transition s i).flight_state = states.state_failsafe := by
  decide

/-- C1 witness: armed in Rate with failsafe asserted and a simultaneous
mode-switch change and arm-switch off, the next state is Failsafe. -/
theorem C1_witness :
    (transition { flight_state := .state_rate, failsafe_arm_seen_off := false }
      { arm := .arm_off, mode := .mode_auto_level,
        calibration_result := .cal_in_progress, calibration_requested := false,
        calibration_complete := false,
        failsafe_active := true }).flight_state = states.state_failsafe :=
  C1_failsafe_preempts_armed_states _ _ (by decide) (by decide)

/-- C2: the transition function is total and deterministic: for every state
and every combination of tick inputs it yields exactly one next state. -/
theorem C2_transition_total_deterministic :
    ∀ (s : MachineState) (i : TickInputs), ∃! t : MachineState, transition s i = t :=
  fun s i => ⟨transition s i, rfl, fun _ h => h.symm⟩

/-- C3: evaluation at the failing configuration FAILSAFE_ROLL_ANGLE = 45.0,
FAILSAFE_PITCH_ANGLE = 30.0: the source macro yields 4500 (the roll limit
times 100), not 3000 (the pitch limit times 100 truncated), because line 23
of Flight_Ctrl.h multiplies FAILSAFE_ROLL_ANGLE instead of
FAILSAFE_PITCH_ANGLE. -/
theorem C3_pitch_macro_reads_roll_at_45_30 :
    FAILSAFE_PITCH_ANGLE_x100 45 30 = 4500 ∧
    truncTowardZero ((30 : ℚ) * 100) = 3000 ∧
    FAILSAFE_PITCH_ANGLE_x100 45 30 ≠ truncTowardZero ((30 : ℚ) * 100) := by
  refine ⟨?_, ?_, ?_⟩ <;>
    norm_num [FAILSAFE_PITCH_ANGLE_x100, truncTowardZero]

/-- C4: from Failsafe, the next state is Disarmed precisely when failsafe is
no longer active, the arm switch was seen off while in Failsafe, and it is
now on again (cycled off then on); and over any tick sequence during which
failsafe_active remains true, the machine stays in Failsafe no matter how
the arm switch is cycled. -/
theorem C4_failsafe_exit_characterisation :
    (∀ (s : MachineState) (i : TickInputs),
      s.flight_state = states.state_failsafe →
        ((transition s i).flight_state = states.state_disarmed ↔
          i.failsafe_active = false ∧ armEffectiveOn i.arm = true ∧
            s.failsafe_arm_seen_off = true)) ∧
    (∀ (s : MachineState) (l : List TickInputs),
      s.flight_state = states.state_failsafe →
        (∀ i ∈ l, i.failsafe_active = true) →
        (runTicks s l).flight_state = states.state_failsafe) := by
  constructor
  · decide
  · intro s l hs hall
    exact failsafe_run_stays l s hs hall

/-- C4 witness: in Failsafe with the link still lost, cycling the arm switch
off then on leaves the machine in Failsafe after both ticks. -/
theorem C4_witness :
    (runTicks { flight_state := .state_failsafe, failsafe_arm_seen_off := false }
      [{ arm := .arm_off, mode := .mode_rate, calibration_result := .cal_in_progress,
         calibration_requested := false, calibration_complete := false,
         failsafe_active := true },
       { arm := .arm_on, mode := .mode_rate, calibration_result := .cal_in_progress,
         calibration_requested := false, calibration_complete := false,
         failsafe_active := true }]).flight_state = states.state_failsafe :=
  C4_failsafe_exit_characterisation.2 _ _ (by decide) (by decide)

/-- C5: Calibrating is entered only from Disarmed, every step out of
Calibrating goes to Disarmed (or stays in Calibrating while in progress),
and no armed state can reach Calibrating on any input combination. -/
theorem C5_calibrating_isolated :
    (∀ (s : MachineState) (i : TickInputs),
      (transition s i).flight_state = states.state_calibrating →
        s.flight_state ≠ states.state_calibrating →
        s.flight_state = states.state_disarmed) ∧
    (∀ (s : MachineState) (i : TickInputs),
      s.flight_state = states.state_calibrating →
        (transition s i).flight_state = states.state_disarmed ∨
        (transition s i).flight_state = states.state_calibrating) ∧
    (∀ (s : MachineState) (i : TickInputs),
      isArmed s.flight_state = true →
        (transition s i).flight_state ≠ states.state_calibrating) := by
  refine ⟨?_, ?_, ?_⟩ <;> decide

/-- C5 witness: a successful calibration step returns to Disarmed. -/
theorem C5_witness :
    (transition { flight_state := .state_calibrating, failsafe_arm_seen_off := false }
      { arm := .arm_off, mode := .mode_rate, calibration_result := .cal_success,
        calibration_requested := false, calibration_complete := true,
        failsafe_active := false }).flight_state = states.state_disarmed ∨
    (transition { flight_state := .state_calibrating, failsafe_arm_seen_off := false }
      { arm := .arm_off, mode := .mode_rate, calibration_result := .cal_success,
        calibration_requested := false, calibration_complete := true,
        failsafe_active := false }).flight_state = states.state_calibrating :=
  C5_calibrating_isolated.2.1 _ _ (by decide)

/-- C6: the Control-Law Dispatcher is a pure total function of the flight
state: Rate maps to the rate gain bank, AutoLevel to the levelled gain bank,
PassThrough to direct passthrough with no gain bank, and Disarmed,
Calibrating and Failsafe to neutral behavior with no gain bank; repeated
queries of the same state return identical results. -/
theorem C6_dispatcher_mapping :
    control_law_dispatch .state_rate
      = { gain := some .rate_gain, law := .law_rate_control } ∧
    control_law_dispatch .state_auto_level
      = { gain := some .levelled_gain, law := .law_auto_level_control } ∧
    control_law_dispatch .state_pass_through
      = { gain := none, law := .law_direct_pass_through } ∧
    control_law_dispatch .state_disarmed
      = { gain := none, law := .law_neutral } ∧
    control_law_dispatch .state_calibrating
      = { gain := none, law := .law_neutral } ∧
    control_law_dispatch .state_failsafe
      = { gain := none, law := .law_neutral } ∧
    (∀ s : states, control_law_dispatch s = control_law_dispatch s) := by
  refine ⟨rfl, rfl, rfl, rfl, rfl, rfl, fun _ => rfl⟩

/-- C7: the attitude failsafe comparison is strict greater-than: with
FAILSAFE_ROLL_ANGLE = 45.0 the threshold is 4500 hundredths; in AutoLevel
(with the receiver link healthy) the monitor triggers exactly when an
absolute angle strictly exceeds the threshold, so a roll of 4500 does not
trigger and 4501 does. -/
theorem C7_attitude_strict_greater :
    FAILSAFE_ROLL_ANGLE_x100 45 30 = 4500 ∧
    (∀ r p : ℤ,
      failsafe_monitor .state_auto_level 0 100 r p 4500 4500 = true ↔
        (4500 < |r| ∨ 4500 < |p|)) ∧
    failsafe_monitor .state_auto_level 0 100 4500 0 4500 4500 = false ∧
    failsafe_monitor .state_auto_level 0 100 4501 0 4500 4500 = true := by
  refine ⟨?_, ?_, ?_, ?_⟩
  · norm_num [FAILSAFE_ROLL_ANGLE_x100, truncTowardZero]
  · intro r p
    simp [failsafe_monitor]
  · decide
  · decide

/-- C8: from Disarmed with the arm switch on and calibration incomplete, the
next state is still Disarmed; and the request is not queued: from Disarmed,
a tick arms only if on that tick the arm switch is on and calibration is
complete. -/
theorem C8_arming_requires_calibration :
    (∀ (s : MachineState) (i : TickInputs),
      s.flight_state = states.state_disarmed →
        armEffectiveOn i.arm = true → i.calibration_complete = false →
        (transition s i).flight_state = states.state_disarmed) ∧
    (∀ (s : MachineState) (i : TickInputs),
      s.flight_state = states.state_disarmed →
        isArmed (transition s i).flight_state = true →
        armEffectiveOn i.arm = true ∧ i.calibration_complete = true) := by
  constructor <;> decide

/-- C8 witness: Disarmed, arm switch on, calibration incomplete (even with a
simultaneous calibration request) stays Disarmed. -/
theorem C8_witness :
    (transition { flight_state := .state_disarmed, failsafe_arm_seen_off := false }
      { arm := .arm_on, mode := .mode_rate, calibration_result := .cal_in_progress,
        calibration_requested := true, calibration_complete := false,
        failsafe_active := false }).flight_state = states.state_disarmed :=
  C8_arming_requires_calibration.1 _ _ (by decide) (by decide) (by decide)

/-- C9 counterexample: in the armed Rate state, on a tick where the Failsafe
Monitor asserts failsafe and the arm-switch value is invalid, the next state
is Failsafe, not Disarmed as the claim requires for every tick. -/
theorem C9_counterexample_failsafe_tick :
    isArmed states.state_rate = true ∧
    (transition { flight_state := .state_rate, failsafe_arm_seen_off := false }
      { arm := .arm_invalid, mode := .mode_rate,
        calibration_result := .cal_in_progress, calibration_requested := false,
        calibration_complete := false, failsafe_active := true }).flight_state
      = states.state_failsafe ∧
    (transition { flight_state := .state_rate, failsafe_arm_seen_off := false }
      { arm := .arm_invalid, mode := .mode_rate,
        calibration_result := .cal_in_progress, calibration_requested := false,
        calibration_complete := false, failsafe_active := true }).flight_state
      ≠ states.state_disarmed := by
  refine ⟨rfl, rfl, by decide⟩

/-- C9 (amended): for every armed state, on a tick where failsafe is not
asserted, an invalid mode-switch value with the arm switch validly on
retains the current armed sub-state, and an invalid arm-switch value is
interpreted as disarm, transitioning to Disarmed; neither raises a fault
(the transition is an ordinary defined step). -/
theorem C9_invalid_inputs_fail_safe :
    ∀ (s : MachineState) (i : TickInputs),
      isArmed s.flight_state = true → i.failsafe_active = false →
        ((i.mode = .mode_invalid → armEffectiveOn i.arm = true →
            (transition s i).flight_state = s.flight_state) ∧
         (i.arm = .arm_invalid →
            (transition s i).flight_state = states.state_disarmed)) := by
  decide

/-- C9 witness: armed in AutoLevel, no failsafe, invalid mode value with arm
on keeps the state at AutoLevel. -/
theorem C9_witness :
    (transition { flight_state := .state_auto_level, failsafe_arm_seen_off := false }
      { arm := .arm_on, mode := .mode_invalid,
        calibration_result := .cal_in_progress, calibration_requested := false,
        calibration_complete := true, failsafe_active := false }).flight_state
      = states.state_auto_level :=
  (C9_invalid_inputs_fail_safe _ _ (by decide) (by decide)).1 (by decide) (by decide)

/-- C10: for every pair of configured angle values, the two threshold macros
expand to the same expression: FAILSAFE_PITCH_ANGLE_x100 equals
FAILSAFE_ROLL_ANGLE_x100, both being the roll angle times 100 truncated
toward zero, independent of the configured pitch angle. -/
theorem C10_pitch_macro_equals_roll_macro :
    ∀ roll_angle pitch_angle : ℚ,
      FAILSAFE_PITCH_ANGLE_x100 roll_angle pitch_angle
        = FAILSAFE_ROLL_ANGLE_x100 roll_angle pitch_angle ∧
      FAILSAFE_PITCH_ANGLE_x100 roll_angle pitch_angle
        = truncTowardZero (roll_angle * 100) :=
  fun _ _ => ⟨rfl, rfl⟩

end PlainFlight
